import Mathlib

/-!
Verification of the `paths` crate (src/src/absolute.rs, relative.rs,
combined.rs, errors.rs) against its natural-language specification.

The crate wraps `std::path::Path` / `PathBuf` on Unix.  A path value is
embedded as a root marker (whether the rendered path starts with the
separator) together with the list of raw, nonempty, separator-free
segments.  Rust's `Path::components()` — which every constructor in the
crate consults — is modelled by `RustPath.components`: the root marker
becomes the component `"/"` (this is precisely `RootDir.as_os_str()`,
which is what the crate's code compares against `"."` / `".."`), interior
`"."` segments are dropped, and a leading `"."` of a rootless path is
kept, exactly as in the Rust standard library.  `Path` equality in Rust
is component-wise; all stored results produced by the normalizing
constructors are in component form, so structural equality of `RustPath`
coincides with Rust path equality on everything compared below.
-/

/-- A Unix path value in the shape Rust's std exposes: a root marker and
the raw segments between separators (each nonempty and separator-free). -/
structure RustPath where
  root : Bool
  segs : List String
deriving DecidableEq, Repr

/-- Rendering used by `Path::display()` on the inputs considered here:
the optional leading separator followed by the segments joined by `/`. -/
def RustPath.display (p : RustPath) : String :=
  (if p.root then "/" else "") ++ String.intercalate "/" p.segs

/-- Rust `Path::is_absolute()` on Unix: the path has a root. -/
def RustPath.is_absolute (p : RustPath) : Bool := p.root

/-- Rust `Path::is_relative()` on Unix: negation of `is_absolute`. -/
def RustPath.is_relative (p : RustPath) : Bool := !p.root

/-- Rust `Path::components()`: the root marker surfaces as the component
`"/"` (that is `RootDir.as_os_str()`), every interior `"."` segment is
dropped, and a leading `"."` of a rootless path is retained. -/
def RustPath.components (p : RustPath) : List String :=
  if p.root then "/" :: p.segs.filter (fun s => s ≠ ".")
  else
    match p.segs with
    | "." :: rest => "." :: rest.filter (fun s => s ≠ ".")
    | segs => segs.filter (fun s => s ≠ ".")

/-- Rust `Path::join` / `PathBuf::push`: an absolute argument replaces the
base outright, a relative argument appends its raw segments. -/
def RustPath.join (base cand : RustPath) : RustPath :=
  if cand.root then cand else { root := base.root, segs := base.segs ++ cand.segs }

/-- The check `c.as_os_str() == "." || c.as_os_str() == ".."` applied by
both normalizing constructors to decide whether normalization is needed. -/
def isDotSeg (s : String) : Bool := s == "." || s == ".."

/-- Error struct `NotAbsolute(pub String)` from src/src/errors.rs. -/
structure NotAbsolute where
  path : String
deriving DecidableEq, Repr

/-- Error struct `NotRelative(pub String)` from src/src/errors.rs. -/
structure NotRelative where
  path : String
deriving DecidableEq, Repr

/-- Error struct `WasNotNormalized(pub String)` from src/src/errors.rs. -/
structure WasNotNormalized where
  path : String
deriving DecidableEq, Repr

/-- Error struct `NormalizationFailed(pub String)` from src/src/errors.rs. -/
structure NormalizationFailed where
  path : String
deriving DecidableEq, Repr

/-- Error struct `JoinedAbsolute(pub String, pub String)` from src/src/errors.rs. -/
structure JoinedAbsolute where
  base : String
  joined : String
deriving DecidableEq, Repr

/-- Enum `AbsolutePathNewError` from src/src/errors.rs. -/
inductive AbsolutePathNewError
  | WasNotNormalized (e : WasNotNormalized)
  | NotAbsolute (e : NotAbsolute)
deriving DecidableEq, Repr

/-- Enum `AbsolutePathBufNewError` from src/src/errors.rs. -/
inductive AbsolutePathBufNewError
  | NormalizationFailed (e : NormalizationFailed)
  | NotAbsolute (e : NotAbsolute)
deriving DecidableEq, Repr

/-- Enum `AbsoluteJoinError` from src/src/errors.rs. -/
inductive AbsoluteJoinError
  | NormalizationFailed (e : NormalizationFailed)
  | JoinedAbsolute (e : JoinedAbsolute)
deriving DecidableEq, Repr

/-- Function `AbsolutePath::try_new` (src/src/absolute.rs lines 24-36): reject a
relative input with `NotAbsolute`; reject any input whose components
contain `"."` or `".."` with `WasNotNormalized`; otherwise return the
input unchanged (the view form performs no collapsing). -/
def AbsolutePath.try_new (p : RustPath) : Except AbsolutePathNewError RustPath :=
  if p.is_relative then .error (.NotAbsolute ⟨p.display⟩)
  else if p.components.any isDotSeg then .error (.WasNotNormalized ⟨p.display⟩)
  else .ok p

/-- Function `AbsolutePath::new_unchecked` (src/src/absolute.rs lines 38-40):
`try_new(path).expect("an absolute path")`.  The result `none` models the
panic of the `expect` when the re-validation fails. -/
def AbsolutePath.new_unchecked (p : RustPath) : Option RustPath :=
  (AbsolutePath.try_new p).toOption

/-- The component loop of `AbsolutePathBuf::try_new` (src/src/absolute.rs lines
131-144).  The accumulator holds the `new_pb` vector reversed (head =
most recently pushed): `"."` is dropped, `".."` pops the most recent
entry and signals failure (`none`, the early `return Err`) when the
vector is empty, anything else — including the root component `"/"` — is
pushed. -/
def AbsolutePathBuf.normLoop : List String → List String → Option (List String)
  | [], acc => some acc
  | c :: rest, acc =>
    if c = "." then AbsolutePathBuf.normLoop rest acc
    else if c = ".." then
      match acc with
      | [] => none
      | _ :: acc' => AbsolutePathBuf.normLoop rest acc'
    else AbsolutePathBuf.normLoop rest (c :: acc)

/-- Rebuilding `PathBuf::from_iter(new_pb)` (src/src/absolute.rs line 148 and
src/src/relative.rs line 112): pushing the component `"/"` first makes the
result rooted; all the uses below only ever have `"/"` in head position. -/
def pathFromComponents (cs : List String) : RustPath :=
  match cs with
  | "/" :: rest => { root := true, segs := rest }
  | cs => { root := false, segs := cs }

/-- Function `AbsolutePathBuf::try_new` (src/src/absolute.rs lines 120-152):
reject relative input with `NotAbsolute`; if no component is `"."` or
`".."` store the input as given; otherwise run the stack loop, turning a
failed pop or an empty final vector into `NormalizationFailed` carrying
the display string of the unnormalized input. -/
def AbsolutePathBuf.try_new (p : RustPath) : Except AbsolutePathBufNewError RustPath :=
  if p.is_relative then .error (.NotAbsolute ⟨p.display⟩)
  else if p.components.any isDotSeg then
    match AbsolutePathBuf.normLoop p.components [] with
    | none => .error (.NormalizationFailed ⟨p.display⟩)
    | some acc =>
      if acc.isEmpty then .error (.NormalizationFailed ⟨p.display⟩)
      else .ok (pathFromComponents acc.reverse)
  else .ok p

/-- Function `AbsolutePathBuf::join` (src/src/absolute.rs lines 172-182): reject an
absolute candidate with `JoinedAbsolute`, otherwise renormalize the raw
concatenation via `try_new`; the `NotAbsolute` branch is
`std::unreachable!()` in the source, modelled as `none` (a panic). -/
def AbsolutePathBuf.join (base cand : RustPath) : Option (Except AbsoluteJoinError RustPath) :=
  if cand.is_absolute then
    some (.error (.JoinedAbsolute ⟨base.display, cand.display⟩))
  else
    match AbsolutePathBuf.try_new (base.join cand) with
    | .ok v => some (.ok v)
    | .error (.NormalizationFailed e) => some (.error (.NormalizationFailed e))
    | .error (.NotAbsolute _) => none

/-- Function `AbsolutePath::join` (src/src/absolute.rs lines 50-62): identical logic
to the owned form's `join`; its `_ => unreachable!()` arm catches the
`NotAbsolute` case and is likewise modelled as `none`. -/
def AbsolutePath.join (base cand : RustPath) : Option (Except AbsoluteJoinError RustPath) :=
  if cand.is_absolute then
    some (.error (.JoinedAbsolute ⟨base.display, cand.display⟩))
  else
    match AbsolutePathBuf.try_new (base.join cand) with
    | .ok v => some (.ok v)
    | .error (.NormalizationFailed e) => some (.error (.NormalizationFailed e))
    | .error (.NotAbsolute _) => none

/-- Function `AbsolutePathBuf::as_absolute_path` (src/src/absolute.rs lines 164-167),
and equally `Deref`, `AsRef<AbsolutePath>` and `From<&AbsolutePath>`:
all call `AbsolutePath::new_unchecked` on the stored path, whose `expect`
panics (`none`) when the stored path fails `AbsolutePath::try_new`. -/
def AbsolutePathBuf.as_absolute_path (p : RustPath) : Option RustPath :=
  AbsolutePath.new_unchecked p

/-- Function `RelativePath::try_new` (src/src/relative.rs lines 19-26): reject a
root-present input with `NotRelative`, otherwise store the input
verbatim. -/
def RelativePath.try_new (p : RustPath) : Except NotRelative RustPath :=
  if p.is_absolute then .error ⟨p.display⟩ else .ok p

/-- The component loop of `RelativePathBuf::try_new` (src/src/relative.rs lines
97-110), unbounded mode: as the absolute loop, except that a `".."`
meeting an empty vector pushes itself instead of failing.  Note the pop
is unconditional when the vector is nonempty: a `".."` on top is popped
just like a regular segment. -/
def RelativePathBuf.normLoop : List String → List String → List String
  | [], acc => acc
  | c :: rest, acc =>
    if c = "." then RelativePathBuf.normLoop rest acc
    else if c = ".." then
      match acc with
      | [] => RelativePathBuf.normLoop rest [".."]
      | _ :: acc' => RelativePathBuf.normLoop rest acc'
    else RelativePathBuf.normLoop rest (c :: acc)

/-- Function `RelativePathBuf::try_new` (src/src/relative.rs lines 86-115): reject a
root-present input with `NotRelative`; if no component is `"."` or
`".."` store the input as given; otherwise run the unbounded stack loop,
which cannot fail. -/
def RelativePathBuf.try_new (p : RustPath) : Except NotRelative RustPath :=
  if p.is_absolute then .error ⟨p.display⟩
  else if p.components.any isDotSeg then
    .ok (pathFromComponents (RelativePathBuf.normLoop p.components []).reverse)
  else .ok p

/-- The sum `CombinedPath` (src/src/combined.rs lines 21-24). -/
inductive CombinedPath
  | Relative (p : RustPath)
  | Absolute (p : RustPath)
deriving DecidableEq, Repr

/-- Function `CombinedPath::try_new` (src/src/combined.rs lines 27-43): dispatch on
the root marker; the absolute branch surfaces only `WasNotNormalized`
(its `NotAbsolute` arm is `std::unreachable!()`, modelled `none`), the
relative branch uses an `expect` (also modelled `none` on failure). -/
def CombinedPath.try_new (p : RustPath) : Option (Except WasNotNormalized CombinedPath) :=
  if p.is_absolute then
    match AbsolutePath.try_new p with
    | .ok v => some (.ok (.Absolute v))
    | .error (.WasNotNormalized e) => some (.error e)
    | .error (.NotAbsolute _) => none
  else
    match RelativePath.try_new p with
    | .ok v => some (.ok (.Relative v))
    | .error _ => none

/-- Function `CombinedPath::is_relative` (src/src/combined.rs lines 64-69). -/
def CombinedPath.is_relative : CombinedPath → Bool
  | .Relative _ => true
  | .Absolute _ => false

/-- Function `CombinedPath::is_absolute` (src/src/combined.rs lines 71-76). -/
def CombinedPath.is_absolute : CombinedPath → Bool
  | .Relative _ => false
  | .Absolute _ => true

deriving instance DecidableEq for Except

/-- Processing a run of segments that are neither `"."` nor `".."` just
pushes them all onto the stack. -/
theorem normLoop_append_regular (xs ys acc : List String)
    (h : ∀ x ∈ xs, x ≠ "." ∧ x ≠ "..") :
    AbsolutePathBuf.normLoop (xs ++ ys) acc
      = AbsolutePathBuf.normLoop ys (xs.reverse ++ acc) := by
  induction xs generalizing acc with
  | nil => simp
  | cons x xs ih =>
    obtain ⟨hx1, hx2⟩ := h x (by simp)
    simp only [List.cons_append, AbsolutePathBuf.normLoop, if_neg hx1, if_neg hx2,
      List.append_eq]
    rw [ih (x :: acc) (fun y hy => h y (by simp [hy]))]
    simp

/-- Processing a run of `".."` segments pops that many entries, provided
the stack is deep enough. -/
theorem normLoop_replicate_dotdot (n : ℕ) (acc : List String) (h : n ≤ acc.length) :
    AbsolutePathBuf.normLoop (List.replicate n "..") acc = some (acc.drop n) := by
  induction n generalizing acc with
  | zero => simp [AbsolutePathBuf.normLoop]
  | succ n ih =>
    match acc with
    | [] => simp at h
    | a :: acc' =>
      simp only [List.replicate_succ, AbsolutePathBuf.normLoop,
        if_neg (by decide : (".." : String) ≠ "."), if_pos rfl]
      rw [ih acc' (by simpa using h)]
      simp

/-- Claim C1 (code evaluated at the failing input): the base `/` joined
with the relative candidate `../a` does not fail; it returns `Ok`, but
the value it returns is the root-absent path `a` — the `..` popped the
root marker off the normalizer's stack.  This contradicts the claimed
invariant that `A.join(R)` either fails with `NormalizationFailed` or
yields a root-present value. -/
theorem c1_join_can_return_rootless :
    AbsolutePathBuf.join ⟨true, []⟩ ⟨false, ["..", "a"]⟩
        = some (.ok ⟨false, ["a"]⟩) ∧
    RustPath.is_absolute ⟨false, ["a"]⟩ = false := by
  constructor <;> decide

/-- Claim C2 (counterexample): the input `/a/..` collapses to exactly the
root, and `AbsolutePathBuf::try_new` succeeds with the root path `/`
instead of failing with `NormalizationFailed` as the claim states: the
root component `"/"` sits on the stack, so the final vector `["/"]` is
not empty. -/
theorem c2_collapse_to_root_succeeds :
    AbsolutePathBuf.try_new ⟨true, ["a", ".."]⟩ = .ok ⟨true, []⟩ ∧
    ¬ ∃ e, AbsolutePathBuf.try_new ⟨true, ["a", ".."]⟩
        = .error (.NormalizationFailed e) := by
  refine ⟨by decide, ?_⟩
  rintro ⟨e, he⟩
  rw [show AbsolutePathBuf.try_new ⟨true, ["a", ".."]⟩ = .ok ⟨true, []⟩ from by decide] at he
  exact Except.noConfusion he

/-- On a root-present input that needs normalization, `try_new` is the
stack loop followed by the empty-vector check. -/
theorem try_new_rooted_needing_normalization (p : RustPath) (h : p.root = true)
    (hd : p.components.any isDotSeg = true) :
    AbsolutePathBuf.try_new p =
      match AbsolutePathBuf.normLoop p.components [] with
      | none => .error (.NormalizationFailed ⟨p.display⟩)
      | some acc =>
        if acc.isEmpty then .error (.NormalizationFailed ⟨p.display⟩)
        else .ok (pathFromComponents acc.reverse) := by
  simp [AbsolutePathBuf.try_new, RustPath.is_relative, h, hd]

/-- Claim C2 (amended): an input whose segments beyond the root are all
regular and are collapsed away by an equal number of trailing `..`
segments normalizes successfully to exactly the root path — the
`NormalizationFailed` cases are only traversal strictly past the root. -/
theorem c2_collapse_to_root_general (xs : List String) (h1 : xs ≠ [])
    (h2 : ∀ x ∈ xs, x ≠ "." ∧ x ≠ "..") :
    AbsolutePathBuf.try_new ⟨true, xs ++ List.replicate xs.length ".."⟩
      = .ok ⟨true, []⟩ := by
  have hfilter : (xs ++ List.replicate xs.length "..").filter (fun s => s ≠ ".")
      = xs ++ List.replicate xs.length ".." := by
    rw [List.filter_eq_self]
    intro a ha
    rcases List.mem_append.mp ha with ha | ha
    · exact decide_eq_true (h2 a ha).1
    · have ha2 : a = ".." := (List.eq_of_mem_replicate ha)
      subst ha2; decide
  have hcomp : (⟨true, xs ++ List.replicate xs.length ".."⟩ : RustPath).components
      = "/" :: (xs ++ List.replicate xs.length "..") := by
    simp only [RustPath.components, hfilter]
    rfl
  have hn : xs.length ≠ 0 := fun hh => h1 (List.length_eq_zero.mp hh)
  have hany : ((⟨true, xs ++ List.replicate xs.length ".."⟩ : RustPath).components).any
      isDotSeg = true := by
    rw [hcomp]
    refine List.any_eq_true.mpr ⟨"..", ?_, by decide⟩
    exact List.mem_cons_of_mem _ (List.mem_append_right _
      (List.mem_replicate.mpr ⟨hn, rfl⟩))
  have hstep : AbsolutePathBuf.normLoop ("/" :: (xs ++ List.replicate xs.length "..")) []
      = AbsolutePathBuf.normLoop (xs ++ List.replicate xs.length "..") ["/"] := by
    simp [AbsolutePathBuf.normLoop]
  have hdrop : (xs.reverse ++ ["/"]).drop xs.length = ["/"] := by
    rw [← List.length_reverse xs]
    exact List.drop_left xs.reverse ["/"]
  have hloop : AbsolutePathBuf.normLoop
      ("/" :: (xs ++ List.replicate xs.length "..")) [] = some ["/"] := by
    rw [hstep, normLoop_append_regular xs _ ["/"] h2,
      normLoop_replicate_dotdot xs.length (xs.reverse ++ ["/"]) (by simp), hdrop]
  rw [try_new_rooted_needing_normalization _ rfl hany, hcomp, hloop]
  simp [pathFromComponents]

/-- Witness for the amended Claim C2, at the concrete input `/a/..`. -/
theorem c2_collapse_to_root_general_witness :
    AbsolutePathBuf.try_new
        ⟨true, ["a"] ++ List.replicate (List.length ["a"]) ".."⟩ = .ok ⟨true, []⟩ :=
  c2_collapse_to_root_general ["a"] (by decide) (by decide)

/-- Claim C3 (code evaluated at the failing input): the unbounded loop of
`RelativePathBuf::try_new` pops whatever is on top of the stack when it
meets a `..`, including another `..`.  Hence `../..` collapses to the
empty path and `../../a` collapses to `a`, instead of the leading `..`
segments accumulating as the claim states. -/
theorem c3_leading_dotdots_cancel :
    RelativePathBuf.try_new ⟨false, ["..", "..", "a"]⟩ = .ok ⟨false, ["a"]⟩ ∧
    RelativePathBuf.try_new ⟨false, ["..", ".."]⟩ = .ok ⟨false, []⟩ := by
  constructor <;> decide

/-- Claim C4 (code evaluated at the failing input): `try_new` accepts
`/../a` and stores the root-absent path `a`; re-validating that stored
path through `AbsolutePath::new_unchecked` — as `as_absolute_path()`,
`Deref::deref`, `AsRef` and `From<&AbsolutePath>` all do — fails its
`expect("an absolute path")`, i.e. panics (modelled by `none`). -/
theorem c4_internal_revalidation_panics :
    AbsolutePathBuf.try_new ⟨true, ["..", "a"]⟩ = .ok ⟨false, ["a"]⟩ ∧
    AbsolutePathBuf.as_absolute_path ⟨false, ["a"]⟩ = none := by
  constructor <;> decide

/-- Claim C5 (code evaluated at the failing input): `try_new` accepts
`/../a` with result value `a`, but applying `try_new` to that stored
path does not succeed — it fails with `NotAbsolute` — so normalization
is not idempotent on everything `try_new` accepts. -/
theorem c5_renormalizing_stored_value_fails :
    AbsolutePathBuf.try_new ⟨true, ["..", "a"]⟩ = .ok ⟨false, ["a"]⟩ ∧
    AbsolutePathBuf.try_new ⟨false, ["a"]⟩ = .error (.NotAbsolute ⟨"a"⟩) := by
  constructor <;> decide

/-- Claim C6: `join` on an absolute base with a root-absent candidate is
exactly concatenation of the base's segments with the candidate's raw
segments followed by root-bounded renormalization (`Ok` results and
`NormalizationFailed` errors correspond both ways); in particular
`/a/b` joined with `../c` yields `/a/c`, and constructing from
`/a/./b/../c` yields `/a/c`. -/
theorem c6_join_is_concat_then_normalize :
    (∀ base cand v : RustPath, base.root = true → cand.root = false →
      (AbsolutePathBuf.join base cand = some (.ok v) ↔
        AbsolutePathBuf.try_new ⟨true, base.segs ++ cand.segs⟩ = .ok v)) ∧
    (∀ base cand : RustPath, ∀ e : NormalizationFailed,
      base.root = true → cand.root = false →
      (AbsolutePathBuf.join base cand = some (.error (.NormalizationFailed e)) ↔
        AbsolutePathBuf.try_new ⟨true, base.segs ++ cand.segs⟩
          = .error (.NormalizationFailed e))) ∧
    AbsolutePathBuf.join ⟨true, ["a", "b"]⟩ ⟨false, ["..", "c"]⟩
      = some (.ok ⟨true, ["a", "c"]⟩) ∧
    AbsolutePathBuf.try_new ⟨true, ["a", ".", "b", "..", "c"]⟩
      = .ok ⟨true, ["a", "c"]⟩ := by
  refine ⟨?_, ?_, by decide, by decide⟩
  · rintro ⟨br, bs⟩ ⟨cr, cs⟩ v hb hc
    simp only at hb hc
    subst hb; subst hc
    simp only [AbsolutePathBuf.join, RustPath.is_absolute, RustPath.join]
    rcases htn : AbsolutePathBuf.try_new ⟨true, bs ++ cs⟩ with err | w
    · rcases err with e | e <;> simp [htn]
    · simp [htn]
  · rintro ⟨br, bs⟩ ⟨cr, cs⟩ e hb hc
    simp only at hb hc
    subst hb; subst hc
    simp only [AbsolutePathBuf.join, RustPath.is_absolute, RustPath.join]
    rcases htn : AbsolutePathBuf.try_new ⟨true, bs ++ cs⟩ with err | w
    · rcases err with e' | e' <;> simp [htn]
    · simp [htn]

/-- Witness for Claim C6, at base `/a/b` and candidate `c`. -/
theorem c6_join_is_concat_then_normalize_witness :
    AbsolutePathBuf.join ⟨true, ["a", "b"]⟩ ⟨false, ["c"]⟩
      = some (.ok ⟨true, ["a", "b", "c"]⟩) :=
  (c6_join_is_concat_then_normalize.1 ⟨true, ["a", "b"]⟩ ⟨false, ["c"]⟩
    ⟨true, ["a", "b", "c"]⟩ rfl rfl).mpr (by decide)

/-- Claim C7 (code evaluated at the failing input): joining `../../../c`
onto the base `/a/b` has one more `..` than the base's two segments can
cancel — traversal past the root — yet the code returns
`Ok` with the root-absent value `c`, because the third `..` silently
popped the root component.  (The second conjunct shows the failure that
does occur when the excess `..` is final: there the error carries the
display string of the unnormalized concatenation, as the claim says.) -/
theorem c7_traversal_past_root_not_always_rejected :
    AbsolutePathBuf.join ⟨true, ["a", "b"]⟩ ⟨false, ["..", "..", "..", "c"]⟩
      = some (.ok ⟨false, ["c"]⟩) ∧
    AbsolutePathBuf.join ⟨true, ["a", "b"]⟩ ⟨false, ["..", "..", "..", ".."]⟩
      = some (.error (.NormalizationFailed ⟨"/a/b/../../../.."⟩)) := by
  constructor <;> decide

/-- Claim C8: joining a root-present candidate onto any base fails with
`JoinedAbsolute` carrying both display strings, before any
normalization is attempted (so it rejects even candidates whose
concatenation would normalize fine); both the view form's and the owned
form's `join` behave identically, and in this pure model the base value
is untouched by construction. -/
theorem c8_joined_absolute_rejected (base cand : RustPath) (h : cand.root = true) :
    AbsolutePathBuf.join base cand
        = some (.error (.JoinedAbsolute ⟨base.display, cand.display⟩)) ∧
    AbsolutePath.join base cand
        = some (.error (.JoinedAbsolute ⟨base.display, cand.display⟩)) := by
  constructor <;>
    simp [AbsolutePathBuf.join, AbsolutePath.join, RustPath.is_absolute, h]

/-- Witness for Claim C8, at base `/a/b` and candidate `/x`. -/
theorem c8_joined_absolute_rejected_witness :
    AbsolutePathBuf.join ⟨true, ["a", "b"]⟩ ⟨true, ["x"]⟩
        = some (.error (.JoinedAbsolute ⟨"/a/b", "/x"⟩)) ∧
    AbsolutePath.join ⟨true, ["a", "b"]⟩ ⟨true, ["x"]⟩
        = some (.error (.JoinedAbsolute ⟨"/a/b", "/x"⟩)) := by
  simpa using c8_joined_absolute_rejected ⟨true, ["a", "b"]⟩ ⟨true, ["x"]⟩ rfl

/-- Claim C9: the view constructors only validate.  `AbsolutePath::try_new`
fails with `NotAbsolute` exactly on root-absent input, fails with
`WasNotNormalized` exactly when a `.` or `..` component is present, and
otherwise returns the input unchanged (no collapsing);
`RelativePath::try_new` fails with `NotRelative` exactly on root-present
input and otherwise stores the input verbatim. -/
theorem c9_view_constructors_only_validate (p : RustPath) :
    (p.root = false → AbsolutePath.try_new p = .error (.NotAbsolute ⟨p.display⟩)) ∧
    (p.root = true → p.components.any isDotSeg = true →
      AbsolutePath.try_new p = .error (.WasNotNormalized ⟨p.display⟩)) ∧
    (p.root = true → p.components.any isDotSeg = false →
      AbsolutePath.try_new p = .ok p) ∧
    (p.root = true → RelativePath.try_new p = .error ⟨p.display⟩) ∧
    (p.root = false → RelativePath.try_new p = .ok p) := by
  refine ⟨fun h => ?_, fun h hd => ?_, fun h hd => ?_, fun h => ?_, fun h => ?_⟩
  · simp [AbsolutePath.try_new, RustPath.is_relative, h]
  · simp [AbsolutePath.try_new, RustPath.is_relative, h, hd]
  · simp [AbsolutePath.try_new, RustPath.is_relative, h, hd]
  · simp [RelativePath.try_new, RustPath.is_absolute, h]
  · simp [RelativePath.try_new, RustPath.is_absolute, h]

/-- Witness for Claim C9, at the root-absent input `a` and the
root-present inputs `/a/..` and `/a`. -/
theorem c9_view_constructors_only_validate_witness :
    AbsolutePath.try_new ⟨false, ["a"]⟩ = .error (.NotAbsolute ⟨"a"⟩) ∧
    AbsolutePath.try_new ⟨true, ["a", ".."]⟩ = .error (.WasNotNormalized ⟨"/a/.."⟩) ∧
    AbsolutePath.try_new ⟨true, ["a"]⟩ = .ok ⟨true, ["a"]⟩ ∧
    RelativePath.try_new ⟨true, ["a"]⟩ = .error ⟨"/a"⟩ ∧
    RelativePath.try_new ⟨false, ["a"]⟩ = .ok ⟨false, ["a"]⟩ := by
  refine ⟨?_, ?_, ?_, ?_, ?_⟩
  · simpa using (c9_view_constructors_only_validate ⟨false, ["a"]⟩).1 rfl
  · simpa using (c9_view_constructors_only_validate ⟨true, ["a", ".."]⟩).2.1 rfl (by decide)
  · simpa using (c9_view_constructors_only_validate ⟨true, ["a"]⟩).2.2.1 rfl (by decide)
  · simpa using (c9_view_constructors_only_validate ⟨true, ["a"]⟩).2.2.2.1 rfl
  · simpa using (c9_view_constructors_only_validate ⟨false, ["a"]⟩).2.2.2.2 rfl

/-- Claim C10: `CombinedPath::try_new` dispatches on the root marker.  A
root-absent input always succeeds with the `Relative` variant (on which
`is_relative()` is true); a root-present input succeeds with the
`Absolute` variant (on which `is_absolute()` is true) when it has no
`.`/`..` component and fails with `WasNotNormalized` when it does; no
input reaches the unreachable arms (`try_new` never panics). -/
theorem c10_combined_dispatch (p : RustPath) :
    (p.root = false →
      CombinedPath.try_new p = some (.ok (.Relative p)) ∧
      CombinedPath.is_relative (.Relative p) = true) ∧
    (p.root = true → p.components.any isDotSeg = true →
      CombinedPath.try_new p = some (.error ⟨p.display⟩)) ∧
    (p.root = true → p.components.any isDotSeg = false →
      CombinedPath.try_new p = some (.ok (.Absolute p)) ∧
      CombinedPath.is_absolute (.Absolute p) = true) ∧
    CombinedPath.try_new p ≠ none := by
  refine ⟨fun h => ⟨?_, rfl⟩, fun h hd => ?_, fun h hd => ⟨?_, rfl⟩, ?_⟩
  · simp [CombinedPath.try_new, RelativePath.try_new, RustPath.is_absolute, h]
  · simp [CombinedPath.try_new, AbsolutePath.try_new, RustPath.is_absolute,
      RustPath.is_relative, h, hd]
  · simp [CombinedPath.try_new, AbsolutePath.try_new, RustPath.is_absolute,
      RustPath.is_relative, h, hd]
  · rcases hr : p.root with _ | _
    · simp [CombinedPath.try_new, RelativePath.try_new, RustPath.is_absolute, hr]
    · rcases hd : p.components.any isDotSeg with _ | _ <;>
        simp [CombinedPath.try_new, AbsolutePath.try_new, RustPath.is_absolute,
          RustPath.is_relative, hr, hd]

/-- Witness for Claim C10, at the root-absent input `a` and the
root-present inputs `/a/..` and `/a`. -/
theorem c10_combined_dispatch_witness :
    CombinedPath.try_new ⟨false, ["a"]⟩ = some (.ok (.Relative ⟨false, ["a"]⟩)) ∧
    CombinedPath.try_new ⟨true, ["a", ".."]⟩ = some (.error ⟨"/a/.."⟩) ∧
    CombinedPath.try_new ⟨true, ["a"]⟩ = some (.ok (.Absolute ⟨true, ["a"]⟩)) := by
  refine ⟨?_, ?_, ?_⟩
  · simpa using ((c10_combined_dispatch ⟨false, ["a"]⟩).1 rfl).1
  · simpa using (c10_combined_dispatch ⟨true, ["a", ".."]⟩).2.1 rfl (by decide)
  · simpa using ((c10_combined_dispatch ⟨true, ["a"]⟩).2.2.1 rfl (by decide)).1
